import Mathlib

set_option maxRecDepth 8192

namespace JavaExt

deriving instance DecidableEq for Except

/-! Shallow embedding of the zed-extensions/java repository (src/src/*.rs).
JSON values (serde_json::Value) are modelled by an inductive type; objects
are association lists; paths are strings; filesystem and network effects are
passed in explicitly as environment fields or function parameters. -/

/-- Model of serde_json::Value. Numbers are modelled as integers (no claim
depends on floating point). -/
inductive JValue where
  | null
  | bool (b : Bool)
  | num (n : Int)
  | str (s : String)
  | arr (elems : List JValue)
  | obj (fields : List (String × JValue))

/-- Lookup of a key in an object field list (serde_json map lookup). -/
def lookupField : List (String × JValue) → String → Option JValue
  | [], _ => none
  | (k, w) :: rest, key => if k = key then some w else lookupField rest key

/-- Model of Value::get(key): Some only for objects containing the key. -/
def getField (v : JValue) (key : String) : Option JValue :=
  match v with
  | .obj fields => lookupField fields key
  | _ => none

/-- Replace the value of a key in place if present, else append the binding
(model of map insertion for the fields of an object). -/
def setAssoc (fields : List (String × JValue)) (key : String) (v : JValue) :
    List (String × JValue) :=
  match fields with
  | [] => [(key, v)]
  | (k, w) :: rest =>
      if k = key then (k, v) :: rest else (k, w) :: setAssoc rest key v

/-- Equality of a Value against Value::String(s): true only for equal strings
(model of PartialEq used by bundles_vec.contains(&canonical_path)). -/
def jvalStrEq (x : JValue) (s : String) : Bool :=
  match x with
  | .str t => t = s
  | _ => false

/-- Number of occurrences of the string s among the elements of a JSON array. -/
def countPath (vec : List JValue) (s : String) : Nat :=
  (vec.filter (fun x => jvalStrEq x s)).length

/-- Outcome of a Rust computation that may also panic (for code whose panic
paths matter to the claims, such as the byte slicing in get_tag_at and the
Value index-assignment in inject_plugin_into_options). -/
inductive RustExcept (α : Type) where
  | ok (a : α)
  | err (e : String)
  | panicked
deriving DecidableEq

-- src/src/debugger.rs ------------------------------------------------------

def TEST_SCOPE : String := "$Test"
def AUTO_SCOPE : String := "$Auto"
def RUNTIME_SCOPE : String := "$Runtime"

def SCOPES : List String := [TEST_SCOPE, AUTO_SCOPE, RUNTIME_SCOPE]

/-- Model of Vec::dedup: removes consecutive repeated elements only. -/
def vecDedup : List String → List String
  | [] => []
  | [a] => [a]
  | a :: b :: rest =>
      if a = b then vecDedup (b :: rest) else a :: vecDedup (b :: rest)

/-- The classpath scope chosen by inject_config when a reserved marker is
present (debugger.rs lines 344-354). -/
def scopeOf (classpaths : List String) : Option String :=
  if classpaths.any (fun c => c = TEST_SCOPE) then some "test"
  else if classpaths.any (fun c => c = AUTO_SCOPE) then none
  else if classpaths.any (fun c => c = RUNTIME_SCOPE) then some "runtime"
  else none

/-- retain followed by dedup (debugger.rs lines 365-366): strip every scope
marker, then collapse consecutive duplicates. -/
def stripAndDedup (classpaths : List String) : List String :=
  vecDedup (classpaths.filter (fun c => !(SCOPES.contains c)))

/-- Classpath portion of inject_config (debugger.rs lines 337-366): default to
the auto marker when unset, extend with the collaborator results when a marker
is present, then strip markers and dedup.  resolved is the list of entry lists
returned by resolve_class_path (it is consulted only when a marker occurs). -/
def resolveClasspaths (class_paths : Option (List String))
    (resolved : List (List String)) : List String :=
  let classpaths := class_paths.getD [AUTO_SCOPE]
  let classpaths :=
    if classpaths.any (fun c => SCOPES.contains c)
    then classpaths ++ resolved.flatten
    else classpaths
  stripAndDedup classpaths

/-- Model of lsp.rs MainClassEntry (camelCase wire names mainClass,
projectName, filePath). -/
structure MainClassEntry where
  main_class : String
  project_name : String
  file_path : String

/-- The candidates kept by the two filters of inject_config (debugger.rs
lines 307-322): an entry survives when it agrees with every hint that is
set. -/
def matchingEntries (main_class project_name : Option String)
    (candidates : List MainClassEntry) : List MainClassEntry :=
  (candidates.filter fun e =>
    match main_class with
    | some c => e.main_class = c
    | none => true).filter fun e =>
      match project_name with
      | some p => e.project_name = p
      | none => true

/-- Entry point portion of inject_config (debugger.rs lines 296-335): filter
the collaborator candidates by the configured hints; more than one match is an
error, one match overrides, zero matches pass the hints through. -/
def resolveEntryPoint (main_class project_name : Option String)
    (candidates : List MainClassEntry) :
    Except String (Option String × Option String) :=
  let entries := matchingEntries main_class project_name candidates
  if entries.length > 1 then
    .error "Project have multiple entry points, you must explicitly specify \"mainClass\" or \"projectName\""
  else
    match entries.head? with
    | none => .ok (main_class, project_name)
    | some e => .ok (some e.main_class, some e.project_name)

/-- The running language server, as consumed by inject_config
(resolve_main_class and resolve_class_path requests, lsp.rs). -/
structure LspCollab where
  resolveMainClass : List String → Except String (List MainClassEntry)
  resolveClassPath : List (Option String) → Except String (List (List String))

/-- Model of the JavaDebugLaunchConfig struct (debugger.rs lines 21-55). -/
structure JavaDebugLaunchConfig where
  request : String
  project_name : Option String := none
  main_class : Option String := none
  args : Option String := none
  vm_args : Option String := none
  encoding : Option String := none
  class_paths : Option (List String) := none
  module_paths : Option (List String) := none
  cwd : Option String := none
  env : Option (List (String × String)) := none
  stop_on_entry : Option Bool := none
  no_debug : Option Bool := none
  console : Option String := none
  shorten_command_line : Option String := none
  launcher_script : Option String := none
  java_exec : Option String := none

/-- serde: an optional String field; absent or null is None, a string is Some,
anything else is a type error. -/
def parseOptStr (v : JValue) (key : String) : Except String (Option String) :=
  match getField v key with
  | none => .ok none
  | some .null => .ok none
  | some (.str s) => .ok (some s)
  | some _ => .error ("invalid type for field " ++ key)

/-- serde: one element of a Vec of String; non-string elements are type
errors. -/
def parseStrElem (key : String) (e : JValue) : Except String String :=
  match e with
  | .str s => .ok s
  | _ => .error ("invalid type for field " ++ key)

/-- serde: one entry of a map of String to String. -/
def parseStrPair (key : String) (kv : String × JValue) :
    Except String (String × String) :=
  match kv.2 with
  | .str s => .ok (kv.1, s)
  | _ => .error ("invalid type for field " ++ key)

/-- serde: an optional Vec of String field. -/
def parseOptStrList (v : JValue) (key : String) :
    Except String (Option (List String)) :=
  match getField v key with
  | none => .ok none
  | some .null => .ok none
  | some (.arr elems) => (elems.mapM (parseStrElem key)).map some
  | some _ => .error ("invalid type for field " ++ key)

/-- serde: an optional bool field. -/
def parseOptBool (v : JValue) (key : String) : Except String (Option Bool) :=
  match getField v key with
  | none => .ok none
  | some .null => .ok none
  | some (.bool b) => .ok (some b)
  | some _ => .error ("invalid type for field " ++ key)

/-- serde: an optional HashMap of String to String field. -/
def parseOptStrMap (v : JValue) (key : String) :
    Except String (Option (List (String × String))) :=
  match getField v key with
  | none => .ok none
  | some .null => .ok none
  | some (.obj fields) => (fields.mapM (parseStrPair key)).map some
  | some _ => .error ("invalid type for field " ++ key)

/-- serde_json::from_value for JavaDebugLaunchConfig: the request field is
required (missing field error when absent); all other fields are optional. -/
def parseLaunchConfig (v : JValue) : Except String JavaDebugLaunchConfig :=
  match v with
  | .obj _ => do
      let request ←
        match getField v "request" with
        | some (.str s) => Except.ok s
        | some _ => Except.error "invalid type for field request"
        | none => Except.error "missing field request"
      let project_name ← parseOptStr v "projectName"
      let main_class ← parseOptStr v "mainClass"
      let args ← parseOptStr v "args"
      let vm_args ← parseOptStr v "vmArgs"
      let encoding ← parseOptStr v "encoding"
      let class_paths ← parseOptStrList v "classPaths"
      let module_paths ← parseOptStrList v "modulePaths"
      let cwd ← parseOptStr v "cwd"
      let env ← parseOptStrMap v "env"
      let stop_on_entry ← parseOptBool v "stopOnEntry"
      let no_debug ← parseOptBool v "noDebug"
      let console ← parseOptStr v "console"
      let shorten_command_line ← parseOptStr v "shortenCommandLine"
      let launcher_script ← parseOptStr v "launcherScript"
      let java_exec ← parseOptStr v "javaExec"
      .ok { request, project_name, main_class, args, vm_args, encoding,
            class_paths, module_paths, cwd, env, stop_on_entry, no_debug,
            console, shorten_command_line, launcher_script, java_exec }
  | _ => .error "invalid type: expected struct JavaDebugLaunchConfig"

/-- serde_json string escaping for one character (quote, backslash, control
characters; all inputs used by the claims are plain ASCII). -/
def escapeJsonChar (c : Char) : String :=
  if c = '"' then "\\\""
  else if c = '\\' then "\\\\"
  else if c = '\n' then "\\n"
  else if c = '\r' then "\\r"
  else if c = '\t' then "\\t"
  else String.singleton c

/-- serde_json string escaping. -/
def escapeJson (s : String) : String :=
  String.join (s.data.map escapeJsonChar)

/-- A JSON string literal. -/
def jstr (s : String) : String := "\"" ++ escapeJson s ++ "\""

/-- A JSON array of strings. -/
def jstrList (xs : List String) : String :=
  "[" ++ String.intercalate "," (xs.map jstr) ++ "]"

/-- A JSON object of string values (the env map). -/
def jstrMap (xs : List (String × String)) : String :=
  "\x7b" ++ String.intercalate ","
    (xs.map fun p => jstr p.1 ++ ":" ++ jstr p.2) ++ "\x7d"

/-- A JSON bool. -/
def jbool (b : Bool) : String := if b then "true" else "false"

/-- serde_json::to_string of JavaDebugLaunchConfig: compact output, fields in
declaration order, camelCase names, None fields skipped. -/
def serializeConfig (c : JavaDebugLaunchConfig) : String :=
  let fields : List (Option String) :=
    [some (jstr "request" ++ ":" ++ jstr c.request),
     c.project_name.map (fun s => jstr "projectName" ++ ":" ++ jstr s),
     c.main_class.map (fun s => jstr "mainClass" ++ ":" ++ jstr s),
     c.args.map (fun s => jstr "args" ++ ":" ++ jstr s),
     c.vm_args.map (fun s => jstr "vmArgs" ++ ":" ++ jstr s),
     c.encoding.map (fun s => jstr "encoding" ++ ":" ++ jstr s),
     c.class_paths.map (fun xs => jstr "classPaths" ++ ":" ++ jstrList xs),
     c.module_paths.map (fun xs => jstr "modulePaths" ++ ":" ++ jstrList xs),
     c.cwd.map (fun s => jstr "cwd" ++ ":" ++ jstr s),
     c.env.map (fun m => jstr "env" ++ ":" ++ jstrMap m),
     c.stop_on_entry.map (fun b => jstr "stopOnEntry" ++ ":" ++ jbool b),
     c.no_debug.map (fun b => jstr "noDebug" ++ ":" ++ jbool b),
     c.console.map (fun s => jstr "console" ++ ":" ++ jstr s),
     c.shorten_command_line.map
       (fun s => jstr "shortenCommandLine" ++ ":" ++ jstr s),
     c.launcher_script.map (fun s => jstr "launcherScript" ++ ":" ++ jstr s),
     c.java_exec.map (fun s => jstr "javaExec" ++ ":" ++ jstr s)]
  "\x7b" ++ String.intercalate "," (fields.filterMap id) ++ "\x7d"

/-- Whether pat is a prefix of s (as character lists). -/
def startsWithChars : List Char → List Char → Bool
  | [], _ => true
  | _ :: _, [] => false
  | p :: ps, c :: cs => p = c && startsWithChars ps cs

/-- Left-to-right, non-overlapping replacement of every occurrence of pat
(fuel-indexed, fuel at least the length of the text). -/
def replaceAllAux (pat rep : List Char) : Nat → List Char → List Char
  | 0, s => s
  | _ + 1, [] => []
  | fuel + 1, c :: rest =>
      if startsWithChars pat (c :: rest) then
        rep ++ replaceAllAux pat rep fuel (List.drop (pat.length - 1) rest)
      else
        c :: replaceAllAux pat rep fuel rest

/-- Model of Rust str::replace (the pattern used by inject_config is the
nonempty workspace folder token, so the empty-pattern case is irrelevant). -/
def replaceAll (s pat rep : String) : String :=
  if pat.data.isEmpty then s
  else String.mk (replaceAllAux pat.data rep.data s.data.length s.data)

/-- The workspace folder placeholder token. -/
def workspaceFolderToken : String := "$\x7bworkspaceFolder\x7d"

/-- Result of the launch branch of inject_config: either the configuration is
passed through unchanged or an injected serialized configuration is
produced. -/
inductive InjectOutcome where
  | passthrough
  | injected (out : String)

/-- The pass-through guard of inject_config (debugger.rs lines 283-289): fires
only when a request field is present, is a string, and differs from launch. -/
def passGuard (v : JValue) : Bool :=
  match getField v "request" with
  | some (.str s) => s != "launch"
  | _ => false

/-- Core of Debugger::inject_config (debugger.rs lines 279-380) over the
parsed configuration value.  The worktree root and the running language
server are parameters. -/
def injectConfigCore (workspace_folder : String) (lsp : LspCollab)
    (v : JValue) : Except String InjectOutcome :=
  if passGuard v then .ok .passthrough
  else
    match parseLaunchConfig v with
    | .error e => .error ("Failed to parse java debug config " ++ e)
    | .ok config => do
        let arguments := [config.main_class, config.project_name].filterMap id
        let candidates ← lsp.resolveMainClass arguments
        let mcpn ← resolveEntryPoint config.main_class config.project_name
          candidates
        let classpaths0 := config.class_paths.getD [AUTO_SCOPE]
        let resolved ←
          if classpaths0.any (fun c => SCOPES.contains c) then
            lsp.resolveClassPath [mcpn.1, mcpn.2, scopeOf classpaths0]
          else
            Except.ok []
        let classpaths := resolveClasspaths config.class_paths resolved
        let config2 := { config with
          class_paths := some classpaths,
          main_class := mcpn.1,
          project_name := mcpn.2,
          cwd := config.cwd.or (some workspace_folder) }
        .ok (.injected (replaceAll (serializeConfig config2)
          workspaceFolderToken workspace_folder))

/-- Debugger::inject_config: parse the configuration string (the result of
serde_json::from_str is passed in as parsed), pass non-launch requests
through as the original string, otherwise run the launch branch. -/
def inject_config (workspace_folder : String) (lsp : LspCollab)
    (config_string : String) (parsed : Except String JValue) :
    Except String String :=
  match parsed with
  | .error e => .error ("Failed to parse debug config " ++ e)
  | .ok v =>
      match injectConfigCore workspace_folder lsp v with
      | .error e => .error e
      | .ok .passthrough => .ok config_string
      | .ok (.injected out) => .ok out

/-- Debugger::inject_plugin_into_options (debugger.rs lines 382-424).
plugin_path is the stored plugin path (error when absent); the canonical
path is current_dir joined with it.  A non-array bundles field is an error;
a non-object, non-null options value makes the final index assignment panic
(serde_json IndexMut), modelled by the panicked outcome. -/
def inject_plugin_into_options (plugin_path : Option String)
    (current_dir : String) (initialization_options : Option JValue) :
    RustExcept JValue :=
  match plugin_path with
  | none => .err "Debugger is not loaded yet"
  | some p =>
      let canonical := current_dir ++ "/" ++ p
      match initialization_options with
      | none => .ok (.obj [("bundles", .arr [.str canonical])])
      | some options =>
          match (getField options "bundles").getD (.arr []) with
          | .arr vec =>
              let vec2 :=
                if vec.any (fun x => jvalStrEq x canonical) then vec
                else vec ++ [.str canonical]
              match options with
              | .obj fields => .ok (.obj (setAssoc fields "bundles" (.arr vec2)))
              | .null => .ok (.obj [("bundles", .arr vec2)])
              | _ => .panicked
          | _ => .err "Invalid initialization_options format"

-- src/src/util.rs ----------------------------------------------------------

/-- The tri-state update policy.  The enum and the configuration reader
get_check_updates live outside src in this repository snapshot; the spec
(section 3, UpdatePolicyMode) gives the three variants, and the embedded
functions below take the already-extracted mode as a parameter. -/
inductive CheckUpdates where
  | Always
  | Once
  | Never

def NO_LOCAL_INSTALL_NEVER_ERROR : String :=
  "Update checks disabled (never) and no local installation found"

def NO_LOCAL_INSTALL_ONCE_ERROR : String :=
  "Update check already performed once and no local installation found"

/-- should_use_local_or_download (util.rs lines 381-411).  The mode is the
value of get_check_updates(configuration); checked_once is the value of
has_checked_once(component_name), a marker file existence test.  The function
is pure: it performs no network access. -/
def should_use_local_or_download (mode : CheckUpdates) (local_install : Option String)
    (checked_once : Bool) (component_name : String) :
    Except String (Option String) :=
  match mode with
  | .Never =>
      match local_install with
      | some path => .ok (some path)
      | none =>
          .error (NO_LOCAL_INSTALL_NEVER_ERROR ++ " for " ++ component_name)
  | .Once =>
      match local_install with
      | some path => .ok (some path)
      | none =>
          if checked_once then
            .error (NO_LOCAL_INSTALL_ONCE_ERROR ++ " for " ++ component_name)
          else
            .ok none
  | .Always => .ok none

-- src/src/jdk.rs -----------------------------------------------------------

/-- Environment of try_to_fetch_and_install_latest_jdk: the filesystem and
network facts the function consults.  latest_release is the outcome of the
latest_github_release network lookup; bin_path_of models get_jdk_bin_path
(a filesystem walk below an install path); download is the outcome of
download_file for a given version. -/
structure JdkEnv where
  local_jdk : Option String
  marker_exists : Bool
  latest_release : Except String String
  install_path_exists : String → Bool
  download : String → Except String Unit
  bin_path_of : String → Except String String

/-- Outcome of a JDK resolution: the returned path or error, the number of
remote version lookups (latest_github_release calls) performed, and the
version written to the once-marker file, when any. -/
structure JdkOutcome where
  result : Except String String
  lookups : Nat
  marker_written : Option String

/-- try_to_fetch_and_install_latest_jdk (jdk.rs lines 73-154): Never and Once
may short-circuit before the network lookup; otherwise one lookup is made,
the install is downloaded unless already present, and in Once mode the marker
is written with the installed version before returning the bin path. -/
def try_to_fetch_and_install_latest_jdk (mode : CheckUpdates) (env : JdkEnv) :
    JdkOutcome :=
  let cont : JdkOutcome :=
    match env.latest_release with
    | .error e => ⟨.error e, 1, none⟩
    | .ok version =>
        let dl : Except String Unit :=
          if env.install_path_exists version then .ok ()
          else env.download version
        match dl with
        | .error e => ⟨.error e, 1, none⟩
        | .ok () =>
            let marker : Option String :=
              match mode with
              | .Once => some version
              | _ => none
            ⟨env.bin_path_of ("jdk/" ++ version), 1, marker⟩
  match mode with
  | .Never =>
      match env.local_jdk with
      | some path => ⟨env.bin_path_of path, 0, none⟩
      | none =>
          ⟨.error "Update checks disabled (never) and no local JDK installation found",
           0, none⟩
  | .Once =>
      match env.local_jdk with
      | some path => ⟨env.bin_path_of path, 0, none⟩
      | none =>
          if env.marker_exists then
            ⟨.error "Update check already performed once for JDK. No local installation found.",
             0, none⟩
          else cont
  | .Always => cont

/-- Debugger::get_or_download (debugger.rs lines 109-158) composed with
get_or_download_fork (lines 125-158): the update policy may short-circuit to
the local jar; otherwise the pinned fork jar is downloaded.  The fork path
performs no remote version lookup and writes no once-marker.
cached_plugin_valid models the self.plugin_path metadata and file name check;
download_ok the outcome of download_file. -/
def debugger_get_or_download (mode : CheckUpdates) (local_install : Option String)
    (checked_once : Bool) (cached_plugin_valid : Bool) (download_ok : Bool) :
    JdkOutcome :=
  match should_use_local_or_download mode local_install checked_once "debugger" with
  | .error e => ⟨.error e, 0, none⟩
  | .ok (some path) => ⟨.ok path, 0, none⟩
  | .ok none =>
      let jar := "debugger/com.microsoft.java.debug.plugin-0.53.2.jar"
      if cached_plugin_valid then ⟨.ok jar, 0, none⟩
      else if download_ok then ⟨.ok jar, 0, none⟩
      else ⟨.error "Failed to download java-debug fork", 0, none⟩

-- src/src/jdtls.rs (launch args) and util.rs get_java_executable -----------

def JAVA_EXEC_NOT_FOUND_ERROR : String :=
  "Could not find Java executable in JAVA_HOME or on PATH"

/-- get_java_executable (util.rs lines 162-190): configured java_home first,
then PATH, then - only when both are absent - the auto-download fallback
gated by is_java_autodownload. -/
def get_java_executable (java_home : Option String)
    (which_java : Option String) (autodownload : Bool)
    (jdk_fetch : Except String String) (exec_name : String) :
    Except String String :=
  match java_home with
  | some home => .ok (home ++ "/bin/" ++ exec_name)
  | none =>
      match which_java with
      | some path => .ok path
      | none =>
          if autodownload then
            jdk_fetch.map (fun bin => bin ++ "/" ++ exec_name)
          else
            .error JAVA_EXEC_NOT_FOUND_ERROR

def JDTLS_VERSION_ERROR : String :=
  "JDTLS requires at least Java 21. If you need to run a JVM < 21, you can specify a different one for JDTLS to use by specifying lsp.jdtls.settings.java.home in the settings"

/-- Environment of build_jdtls_launch_args: the launcher lookup on PATH, the
inputs of get_java_executable, the subprocess-derived major version of a
given executable, and the filesystem-derived paths used by the assembly. -/
structure JdtlsEnv where
  jdtls_launcher_on_path : Option String
  java_home : Option String
  which_java : Option String
  autodownload : Bool
  jdk_fetch : Except String String
  exec_name : String
  major_version : String → Except String Nat
  current_dir : String
  config_dir_name : String
  equinox_jar : Except String String
  data_path : Except String String

/-- build_jdtls_launch_args (jdtls.rs lines 25-80): prefer a jdtls launcher on
PATH; otherwise resolve the java executable, reject a major version below 21,
and assemble the full argument vector, appending the XML entity flags for
major version 24 and above. -/
def build_jdtls_launch_args (env : JdtlsEnv) (jdtls_path : String)
    (jvm_args : List String) : Except String (List String) :=
  match env.jdtls_launcher_on_path with
  | some launcher => .ok [launcher]
  | none => do
      let java_executable ← get_java_executable env.java_home env.which_java
        env.autodownload env.jdk_fetch env.exec_name
      let java_major_version ← env.major_version java_executable
      if java_major_version < 21 then
        .error JDTLS_VERSION_ERROR
      else do
        let jdtls_base_path := env.current_dir ++ "/" ++ jdtls_path
        let shared_config_path := jdtls_base_path ++ "/" ++ env.config_dir_name
        let jar_path ← env.equinox_jar
        let jdtls_data_path ← env.data_path
        let args :=
          [java_executable,
           "-Declipse.application=org.eclipse.jdt.ls.core.id1",
           "-Dosgi.bundles.defaultStartLevel=4",
           "-Declipse.product=org.eclipse.jdt.ls.core.product",
           "-Dosgi.checkConfiguration=true",
           "-Dosgi.sharedConfiguration.area=" ++ shared_config_path,
           "-Dosgi.sharedConfiguration.area.readOnly=true",
           "-Dosgi.configuration.cascaded=true",
           "-Xms1G",
           "--add-modules=ALL-SYSTEM",
           "--add-opens", "java.base/java.util=ALL-UNNAMED",
           "--add-opens", "java.base/java.lang=ALL-UNNAMED"]
          ++ jvm_args
          ++ ["-jar", jar_path, "-data", jdtls_data_path]
        if java_major_version >= 24 then
          .ok (args ++ ["-Djdk.xml.maxGeneralEntitySizeLimit=0",
                        "-Djdk.xml.totalEntitySizeLimit=0"])
        else
          .ok args

-- src/src/jdtls.rs (version scan) ------------------------------------------

/-- A semantic version triple, as collected by the milestones-listing scan. -/
abbrev V3 := Nat × Nat × Nat

/-- Rust u32 parse of the digit-only number buffer: fails on an empty buffer
and on overflow past 2^32.  The scan below only fills the buffer with ASCII
digits, matching char::is_numeric on the ASCII listings in scope. -/
def u32parse (buf : List Char) : Option Nat :=
  if buf.isEmpty then none
  else
    let n := buf.foldl (fun acc c => acc * 10 + (c.toNat - 48)) 0
    if n < 4294967296 then some n else none

/-- Insert into the BTreeSet of versions (set semantics; the maximum is taken
afterwards, so the representation order is irrelevant). -/
def insertVersion (vs : List V3) (v : V3) : List V3 :=
  if v ∈ vs then vs else vs ++ [v]

/-- State of the character scan of try_to_fetch_and_install_latest_jdtls
(jdtls.rs lines 105-147): the collected set, the digit buffer, and the first
two components of the version buffer (the third tuple slot of the Rust
version_buffer is never written, so it is omitted). -/
structure ScanState where
  versions : List V3
  number_buffer : List Char
  vb1 : Option Nat
  vb2 : Option Nat

/-- One step of the scan, faithful to the three-way branch on the current
character; parse failures abort with an error, as the question-mark operator
does in the source. -/
def scanStep (st : ScanState) (c : Char) : Except String ScanState :=
  if c.isDigit then
    .ok { st with number_buffer := st.number_buffer ++ [c] }
  else if c = '.' then
    if st.vb1.isNone && !st.number_buffer.isEmpty then
      match u32parse st.number_buffer with
      | none => .error "could not parse number buffer"
      | some n => .ok { st with vb1 := some n, number_buffer := [] }
    else if st.vb2.isNone && !st.number_buffer.isEmpty then
      match u32parse st.number_buffer with
      | none => .error "could not parse number buffer"
      | some n => .ok { st with vb2 := some n, number_buffer := [] }
    else
      .ok { st with vb1 := none, vb2 := none, number_buffer := [] }
  else
    match st.vb1, st.vb2 with
    | some a, some b =>
        match u32parse st.number_buffer with
        | none => .error "could not parse number buffer"
        | some p =>
            .ok ⟨insertVersion st.versions (a, b, p), [], none, none⟩
    | _, _ => .ok { st with number_buffer := [], vb1 := none, vb2 := none }

/-- The full scan over the downloads listing text. -/
def scanVersions (chars : List Char) : Except String (List V3) :=
  (chars.foldlM scanStep ⟨[], [], none, none⟩).map (fun st => st.versions)

/-- Lexicographic order on version triples, the order of the Rust BTreeSet
of (u32, u32, u32). -/
def vle (a b : V3) : Prop :=
  a.1 < b.1 ∨ (a.1 = b.1 ∧ a.2.1 < b.2.1) ∨
    (a.1 = b.1 ∧ a.2.1 = b.2.1 ∧ a.2.2 ≤ b.2.2)

instance (a b : V3) : Decidable (vle a b) := by
  unfold vle
  infer_instance

/-- The larger of two version triples. -/
def maxPair (a b : V3) : V3 := if vle a b then b else a

/-- BTreeSet::last on the collected set: the greatest element. -/
def maxV : List V3 → Option V3
  | [] => none
  | h :: t => some (t.foldl maxPair h)

/-- The selection step of try_to_fetch_and_install_latest_jdtls (jdtls.rs
line 149): the latest version is the greatest collected triple; an empty set
is the no-available-versions error. -/
def latestJdtlsVersion (listing : String) : Except String V3 :=
  match scanVersions listing.data with
  | .error e => .error e
  | .ok vs =>
      match maxV vs with
      | none => .error "no available versions"
      | some v => .ok v

-- src/src/util.rs get_tag_at -----------------------------------------------

/-- get_tag_at (util.rs lines 286-295).  The name is sliced with a byte range
starting at 1; on an empty name this indexing panics (1 is past the end).
Strings are modelled at character granularity, which coincides with bytes on
the ASCII tag names in scope. -/
def get_tag_at (github_tags : JValue) (index : Nat) :
    RustExcept (Option String) :=
  match github_tags with
  | .arr tags =>
      match tags[index]? with
      | none => .ok none
      | some latest_tag =>
          match getField latest_tag "name" with
          | some (.str s) =>
              if s.data.isEmpty then .panicked
              else .ok (some (String.mk (s.data.drop 1)))
          | _ => .ok none
  | _ => .ok none

def TAG_UNEXPECTED_FORMAT_ERROR : String := "Malformed GitHub tags response"

/-- get_latest_versions_from_tag (util.rs lines 260-284), after the fetch and
deserialization have produced the tags value: both the first and the second
tag are sliced before the malformed-response check, so a panic in either
slice pre-empts the error branch. -/
def get_latest_versions_from_tag (tags : JValue) :
    RustExcept (String × Option String) :=
  match get_tag_at tags 0, get_tag_at tags 1 with
  | .panicked, _ => .panicked
  | _, .panicked => .panicked
  | .err e, _ => .err e
  | _, .err e => .err e
  | .ok latest, .ok second =>
      match latest with
      | none => .err TAG_UNEXPECTED_FORMAT_ERROR
      | some v => .ok (v, second)

-- Fixtures used by concrete theorems ---------------------------------------

/-- The bundles array of an options value, as the Rust code reads it (empty
array default; non-array shapes are rejected before use). -/
def bundlesArrOf (opts : JValue) : List JValue :=
  match (getField opts "bundles").getD (.arr []) with
  | .arr v => v
  | _ => []

/-- A collaborator returning no entry points and no classpath entries. -/
def collabEmpty : LspCollab := ⟨fun _ => .ok [], fun _ => .ok []⟩

/-- A fresh JDK environment: no local install, no marker, a reachable version
source and a working download. -/
def jdkEnvFresh : JdkEnv :=
  ⟨none, false, .ok "25.0.1", fun _ => false, fun _ => .ok (),
   fun p => .ok (p ++ "/bin")⟩

/-- The same environment after the once-marker has been persisted and with
still no local install. -/
def jdkEnvChecked : JdkEnv :=
  ⟨none, true, .ok "25.0.1", fun _ => false, fun _ => .ok (),
   fun p => .ok (p ++ "/bin")⟩

/-- A launch environment whose PATH java reports major version 17 while
auto-download is enabled and a compliant JDK (major 25) is fetchable. -/
def jdtlsEnvOld : JdtlsEnv :=
  ⟨none, none, some "/usr/bin/java", true, .ok "jdk/25.0.1/bin", "java",
   fun exe => if exe = "/usr/bin/java" then .ok 17 else .ok 25,
   "/ext", "config_linux", .ok "launcher.jar", .ok "/cache/data"⟩

/-- A milestones listing containing 1.9.0, 1.10.0 and 1.2.5, plus entries
whose first or second component is non-numeric. -/
def milestonesListing : String :=
  "jdtls/1.9.0/ jdtls/1.10.0/ jdtls/1.2.5/ x.y.z 1.x.3 "

/-- The parsed form of the debug configuration of the substitution example. -/
def c8input : JValue :=
  .obj [("request", .str "launch"),
        ("args", .str "$\x7bworkspaceFolder\x7d/x $\x7bworkspaceFolder\x7d/y"),
        ("classPaths", .arr [.str "/lib/a.jar"]),
        ("cwd", .str "$\x7bworkspaceFolder\x7d/src")]

-- Theorems ------------------------------------------------------------------

theorem vecDedup_head (x : String) (xs : List String) :
    (vecDedup (x :: xs)).head? = some x := by
  induction xs generalizing x with
  | nil => rfl
  | cons c rest ih =>
      by_cases h : x = c
      · subst h
        rw [show vecDedup (x :: x :: rest) = vecDedup (x :: rest) by
          simp [vecDedup]]
        exact ih x
      · rw [show vecDedup (x :: c :: rest) = x :: vecDedup (c :: rest) by
          simp [vecDedup, h]]
        rfl

theorem vecDedup_chain (l : List String) :
    List.Chain' (fun a b => a ≠ b) (vecDedup l) := by
  induction l with
  | nil => simp [vecDedup]
  | cons a t ih =>
      cases t with
      | nil => simp [vecDedup]
      | cons b rest =>
          by_cases h : a = b
          · rw [show vecDedup (a :: b :: rest) = vecDedup (b :: rest) by
              simp [vecDedup, h]]
            exact ih
          · rw [show vecDedup (a :: b :: rest) = a :: vecDedup (b :: rest) by
              simp [vecDedup, h]]
            rw [List.chain'_cons']
            refine ⟨?_, ih⟩
            intro y hy
            rw [vecDedup_head b rest] at hy
            rw [Option.mem_def] at hy
            injection hy with hy
            subst hy
            exact h

theorem vecDedup_mem (l : List String) (x : String)
    (hx : x ∈ vecDedup l) : x ∈ l := by
  induction l with
  | nil => simp [vecDedup] at hx
  | cons a t ih =>
      cases t with
      | nil => simpa [vecDedup] using hx
      | cons b rest =>
          by_cases h : a = b
          · rw [show vecDedup (a :: b :: rest) = vecDedup (b :: rest) by
              simp [vecDedup, h]] at hx
            exact List.mem_cons_of_mem a (ih hx)
          · rw [show vecDedup (a :: b :: rest) = a :: vecDedup (b :: rest) by
              simp [vecDedup, h]] at hx
            rcases List.mem_cons.mp hx with h1 | h1
            · exact h1 ▸ List.mem_cons_self a (b :: rest)
            · exact List.mem_cons_of_mem a (ih h1)

/-- Claim C1, counterexample: with the default auto marker and a resolution
result containing the same entry twice non-adjacently, the final classpath
list still contains that entry twice, so duplicates are not removed in
general (Vec::dedup only collapses consecutive repeats). -/
theorem claim1_counterexample :
    resolveClasspaths (some ["$Auto"]) [["a", "b", "a"]] = ["a", "b", "a"] ∧
    (resolveClasspaths (some ["$Auto"]) [["a", "b", "a"]]).count "a" = 2 := by
  constructor
  · rfl
  · rfl

theorem vecDedup_sublist (l : List String) :
    List.Sublist (vecDedup l) l := by
  induction l with
  | nil => simp [vecDedup]
  | cons a t ih =>
      cases t with
      | nil => simp [vecDedup]
      | cons b rest =>
          by_cases h : a = b
          · rw [show vecDedup (a :: b :: rest) = vecDedup (b :: rest) by
              simp [vecDedup, h]]
            exact ih.trans (List.sublist_cons_self a (b :: rest))
          · rw [show vecDedup (a :: b :: rest) = a :: vecDedup (b :: rest) by
              simp [vecDedup, h]]
            exact List.Sublist.cons₂ a ih

/-- Claim C1, amended: after injection the classpath list contains none of
the three reserved scope markers, consecutive duplicate entries are collapsed
(no two adjacent entries are equal), and the list is a sublist of the
marker-stripped extended classpath list, so the order of the surviving
entries is preserved; non-adjacent duplicates may remain. -/
theorem claim1_classpaths (class_paths : Option (List String))
    (resolved : List (List String)) :
    (resolveClasspaths class_paths resolved).all
      (fun s => !(SCOPES.contains s)) = true ∧
    List.Chain' (fun a b => a ≠ b) (resolveClasspaths class_paths resolved) ∧
    List.Sublist (resolveClasspaths class_paths resolved)
      ((class_paths.getD [AUTO_SCOPE] ++ resolved.flatten).filter
        (fun c => !(SCOPES.contains c))) := by
  refine ⟨?_, ?_, ?_⟩
  · rw [List.all_eq_true]
    intro x hx
    unfold resolveClasspaths stripAndDedup at hx
    have hx2 := vecDedup_mem _ _ hx
    exact (List.mem_filter.mp hx2).2
  · unfold resolveClasspaths stripAndDedup
    exact vecDedup_chain _
  · unfold resolveClasspaths stripAndDedup
    dsimp only
    split
    · exact vecDedup_sublist _
    · rw [List.filter_append]
      exact (vecDedup_sublist _).trans (List.sublist_append_left _ _)

theorem lookup_setAssoc_self (fields : List (String × JValue)) (key : String)
    (v : JValue) : lookupField (setAssoc fields key v) key = some v := by
  induction fields with
  | nil => simp [setAssoc, lookupField]
  | cons kv rest ih =>
      obtain ⟨k, w⟩ := kv
      by_cases h : k = key
      · simp [setAssoc, h, lookupField]
      · simp [setAssoc, h, lookupField, ih]

theorem lookup_setAssoc_ne (fields : List (String × JValue)) (key k2 : String)
    (v : JValue) (h : k2 ≠ key) :
    lookupField (setAssoc fields key v) k2 = lookupField fields k2 := by
  induction fields with
  | nil =>
      have hne : key ≠ k2 := fun hk => h hk.symm
      simp [setAssoc, lookupField, hne]
  | cons kv rest ih =>
      obtain ⟨k, w⟩ := kv
      by_cases hk : k = key
      · subst hk
        have hne : k ≠ k2 := fun hk2 => h hk2.symm
        simp [setAssoc, lookupField, hne]
      · by_cases hk2 : k = k2 <;> simp [setAssoc, hk, lookupField, hk2, ih, h]

theorem setAssoc_setAssoc (fields : List (String × JValue)) (key : String)
    (v : JValue) :
    setAssoc (setAssoc fields key v) key v = setAssoc fields key v := by
  induction fields with
  | nil => simp [setAssoc]
  | cons kv rest ih =>
      obtain ⟨k, w⟩ := kv
      by_cases h : k = key
      · simp [setAssoc, h]
      · simp [setAssoc, h, ih]

theorem countPath_append_one (vec : List JValue) (x : JValue) (s : String) :
    countPath (vec ++ [x]) s =
      countPath vec s + (if jvalStrEq x s then 1 else 0) := by
  cases hx : jvalStrEq x s <;>
    simp [countPath, List.filter_append, hx]

theorem countPath_pos_iff_any (vec : List JValue) (s : String) :
    0 < countPath vec s ↔ vec.any (fun x => jvalStrEq x s) = true := by
  induction vec with
  | nil => simp [countPath]
  | cons a t ih =>
      cases h : jvalStrEq a s
      · simp only [countPath, List.filter_cons, h, if_neg Bool.false_ne_true,
          List.any_cons, Bool.false_or]
        exact ih
      · simp [countPath, List.filter_cons, h]

theorem inject_plugin_obj (p d : String) (ofields : List (String × JValue))
    (vec : List JValue)
    (hb : (lookupField ofields "bundles").getD (.arr []) = .arr vec) :
    inject_plugin_into_options (some p) d (some (.obj ofields)) =
      .ok (.obj (setAssoc ofields "bundles"
        (.arr (if vec.any (fun x => jvalStrEq x (d ++ "/" ++ p)) then vec
               else vec ++ [.str (d ++ "/" ++ p)])))) := by
  simp only [inject_plugin_into_options, getField]
  rw [hb]

/-- Claim C2, counterexample: when the pre-existing bundles array already
holds the canonical plugin path twice, the call leaves the options untouched
(so a second identical call does too), and after the two calls the path still
appears twice in bundles, not exactly once. -/
theorem claim2_counterexample :
    inject_plugin_into_options (some "plugin.jar") "/ext"
        (some (.obj [("bundles",
          .arr [.str "/ext/plugin.jar", .str "/ext/plugin.jar"])])) =
      .ok (.obj [("bundles",
        .arr [.str "/ext/plugin.jar", .str "/ext/plugin.jar"])]) ∧
    countPath [.str "/ext/plugin.jar", .str "/ext/plugin.jar"]
      "/ext/plugin.jar" = 2 := by
  constructor
  · rfl
  · rfl

/-- Claim C2, amended: starting from absent options, or from options whose
bundles array holds the canonical path at most once, injection yields a
bundles array holding the path exactly once, the second call with the same
path returns the options unchanged, and every field other than bundles is
left untouched.  Pre-existing duplicates of the path are not removed. -/
theorem claim2_inject_plugin :
    (∀ (p d : String),
      inject_plugin_into_options (some p) d none =
        .ok (.obj [("bundles", .arr [.str (d ++ "/" ++ p)])])) ∧
    (∀ (p d : String) (opts r1 : JValue),
      inject_plugin_into_options (some p) d (some opts) = .ok r1 →
      countPath (bundlesArrOf opts) (d ++ "/" ++ p) ≤ 1 →
      (∃ bs, getField r1 "bundles" = some (.arr bs) ∧
        countPath bs (d ++ "/" ++ p) = 1) ∧
      inject_plugin_into_options (some p) d (some r1) = .ok r1 ∧
      ∀ k, k ≠ "bundles" → getField r1 k = getField opts k) := by
  constructor
  · intro p d
    rfl
  · intro p d opts r1 h hc
    rcases hbd : (getField opts "bundles").getD (.arr []) with _ | b | n | s | vec | fs
    case null =>
      simp only [inject_plugin_into_options] at h
      rw [hbd] at h
      simp at h
    case bool =>
      simp only [inject_plugin_into_options] at h
      rw [hbd] at h
      simp at h
    case num =>
      simp only [inject_plugin_into_options] at h
      rw [hbd] at h
      simp at h
    case str =>
      simp only [inject_plugin_into_options] at h
      rw [hbd] at h
      simp at h
    case obj =>
      simp only [inject_plugin_into_options] at h
      rw [hbd] at h
      simp at h
    case arr =>
      have hcv : countPath vec (d ++ "/" ++ p) ≤ 1 := by
        simp only [bundlesArrOf, hbd] at hc
        exact hc
      rcases opts with _ | b2 | n2 | s2 | a2 | ofields
      case bool =>
        simp only [inject_plugin_into_options] at h
        rw [hbd] at h
        simp at h
      case num =>
        simp only [inject_plugin_into_options] at h
        rw [hbd] at h
        simp at h
      case str =>
        simp only [inject_plugin_into_options] at h
        rw [hbd] at h
        simp at h
      case arr =>
        simp only [inject_plugin_into_options] at h
        rw [hbd] at h
        simp at h
      case null =>
        have hvec : vec = [] := by
          simp [getField] at hbd
          exact hbd
        subst hvec
        have hr : r1 = .obj [("bundles", .arr [.str (d ++ "/" ++ p)])] := by
          simp only [inject_plugin_into_options] at h
          rw [hbd] at h
          simp at h
          exact h.symm
        subst hr
        refine ⟨⟨[.str (d ++ "/" ++ p)], by simp [getField, lookupField],
          by simp [countPath, jvalStrEq]⟩, ?_, ?_⟩
        · have heq := inject_plugin_obj p d
            [("bundles", .arr [.str (d ++ "/" ++ p)])] [.str (d ++ "/" ++ p)]
            (by simp [lookupField])
          rw [heq]
          simp [jvalStrEq, setAssoc]
        · intro k hk
          have hne : "bundles" ≠ k := fun hh => hk hh.symm
          simp [getField, lookupField, hne]
      case obj =>
        have hbl : (lookupField ofields "bundles").getD (.arr []) = .arr vec := by
          simpa [getField] using hbd
        rw [inject_plugin_obj p d ofields vec hbl] at h
        have hr : r1 = .obj (setAssoc ofields "bundles"
            (.arr (if vec.any (fun x => jvalStrEq x (d ++ "/" ++ p)) then vec
                   else vec ++ [.str (d ++ "/" ++ p)]))) := by
          injection h with h2
          exact h2.symm
        subst hr
        cases hany : vec.any (fun x => jvalStrEq x (d ++ "/" ++ p))
        · have hc0 : countPath vec (d ++ "/" ++ p) = 0 := by
            by_contra hne
            have hpos := (countPath_pos_iff_any vec (d ++ "/" ++ p)).mp
              (Nat.pos_of_ne_zero hne)
            rw [hany] at hpos
            exact Bool.false_ne_true hpos
          have hcnt : countPath (vec ++ [.str (d ++ "/" ++ p)])
              (d ++ "/" ++ p) = 1 := by
            rw [countPath_append_one, hc0]
            simp [jvalStrEq]
          simp only [Bool.false_eq_true, if_false]
          have hany2 : (vec ++ [JValue.str (d ++ "/" ++ p)]).any
              (fun x => jvalStrEq x (d ++ "/" ++ p)) = true :=
            (countPath_pos_iff_any (vec ++ [.str (d ++ "/" ++ p)])
              (d ++ "/" ++ p)).mp (by rw [hcnt]; exact Nat.one_pos)
          refine ⟨⟨vec ++ [.str (d ++ "/" ++ p)], ?_, hcnt⟩, ?_, ?_⟩
          · show lookupField (setAssoc ofields "bundles" _) "bundles" = _
            rw [lookup_setAssoc_self]
          · have heq2 := inject_plugin_obj p d
              (setAssoc ofields "bundles" (.arr (vec ++ [.str (d ++ "/" ++ p)])))
              (vec ++ [.str (d ++ "/" ++ p)])
              (by rw [lookup_setAssoc_self]; rfl)
            rw [heq2, hany2]
            simp [setAssoc_setAssoc]
          · intro k hk
            show lookupField (setAssoc ofields "bundles" _) k = _
            rw [lookup_setAssoc_ne ofields "bundles" k _ hk]
            rfl
        · have hc1 : countPath vec (d ++ "/" ++ p) = 1 := by
            have hpos := (countPath_pos_iff_any vec (d ++ "/" ++ p)).mpr hany
            omega
          simp only [eq_self_iff_true, if_true]
          refine ⟨⟨vec, ?_, hc1⟩, ?_, ?_⟩
          · show lookupField (setAssoc ofields "bundles" _) "bundles" = _
            rw [lookup_setAssoc_self]
          · have heq2 := inject_plugin_obj p d
              (setAssoc ofields "bundles" (.arr vec)) vec
              (by rw [lookup_setAssoc_self]; rfl)
            rw [heq2, hany]
            simp [setAssoc_setAssoc]
          · intro k hk
            show lookupField (setAssoc ofields "bundles" _) k = _
            rw [lookup_setAssoc_ne ofields "bundles" k _ hk]
            rfl


theorem claim2_inject_plugin_witness :
    countPath (bundlesArrOf (JValue.obj [("other", JValue.num 1)]))
      ("/ext" ++ "/" ++ "plugin.jar") ≤ 1 ∧
    inject_plugin_into_options (some "plugin.jar") "/ext"
        (some (JValue.obj [("other", JValue.num 1),
          ("bundles", JValue.arr [JValue.str ("/ext" ++ "/" ++ "plugin.jar")])])) =
      .ok (JValue.obj [("other", JValue.num 1),
        ("bundles", JValue.arr [JValue.str ("/ext" ++ "/" ++ "plugin.jar")])]) :=
  ⟨by decide,
   (claim2_inject_plugin.2 "plugin.jar" "/ext" (JValue.obj [("other", JValue.num 1)])
     (JValue.obj [("other", JValue.num 1),
       ("bundles", JValue.arr [JValue.str ("/ext" ++ "/" ++ "plugin.jar")])])
     rfl (by decide)).2.1⟩

/-- Claim C3, counterexample: resolving the debugger artifact under Once with
no local installation and no marker performs zero remote version lookups (the
fork path uses a pinned version), succeeds, and persists no marker; since the
marker state is unchanged, a second identical resolution with still no local
installation succeeds the same way instead of failing, so the claim fails for
this artifact. -/
theorem claim3_counterexample :
    JdkOutcome.result (debugger_get_or_download CheckUpdates.Once none false false true) =
      .ok "debugger/com.microsoft.java.debug.plugin-0.53.2.jar" ∧
    JdkOutcome.lookups (debugger_get_or_download CheckUpdates.Once none false false true) = 0 ∧
    JdkOutcome.marker_written (debugger_get_or_download CheckUpdates.Once none false false true) = none := by
  refine ⟨rfl, rfl, rfl⟩

/-- Claim C3, amended: for the JDK artifact the claim holds: a first
resolution under Once with no local installation and no marker performs
exactly one remote version lookup and, whenever it returns a path, has
persisted the marker with the installed version; a later resolution that
finds the marker and still no local installation fails without any lookup.
The debugger artifact does not follow this discipline (see the
counterexample). -/
theorem claim3_once_jdk :
    (∀ env : JdkEnv, env.local_jdk = none → env.marker_exists = false →
      ∀ version, env.latest_release = .ok version →
      (try_to_fetch_and_install_latest_jdk .Once env).lookups = 1 ∧
      (∀ path,
        (try_to_fetch_and_install_latest_jdk .Once env).result = .ok path →
        (try_to_fetch_and_install_latest_jdk .Once env).marker_written =
          some version)) ∧
    (∀ env : JdkEnv, env.local_jdk = none → env.marker_exists = true →
      try_to_fetch_and_install_latest_jdk .Once env =
        ⟨.error "Update check already performed once for JDK. No local installation found.",
         0, none⟩) := by
  constructor
  · intro env h1 h2 version h3
    simp only [try_to_fetch_and_install_latest_jdk, h1, h2, h3]
    cases hip : env.install_path_exists version
    · cases hdl : env.download version <;> simp [hdl]
    · simp
  · intro env h1 h2
    simp [try_to_fetch_and_install_latest_jdk, h1, h2]

theorem claim3_once_jdk_witness :
    (try_to_fetch_and_install_latest_jdk .Once jdkEnvFresh).lookups = 1 ∧
    (try_to_fetch_and_install_latest_jdk .Once jdkEnvFresh).marker_written =
      some "25.0.1" ∧
    try_to_fetch_and_install_latest_jdk .Once jdkEnvChecked =
      ⟨.error "Update check already performed once for JDK. No local installation found.",
       0, none⟩ := by
  have h := claim3_once_jdk
  refine ⟨(h.1 jdkEnvFresh rfl rfl "25.0.1" rfl).1, ?_,
    h.2 jdkEnvChecked rfl rfl⟩
  exact (h.1 jdkEnvFresh rfl rfl "25.0.1" rfl).2 ("jdk/25.0.1" ++ "/bin") rfl

/-- Claim C4: under Never mode, the policy function is pure (no network
access by construction) and returns the local path when one exists, else the
checks-disabled error; the JDK resolver under Never performs zero remote
version lookups, returning the local bin path when a local install exists and
the checks-disabled error otherwise. -/
theorem claim4_never_mode :
    NO_LOCAL_INSTALL_NEVER_ERROR =
      "Update checks disabled (never) and no local installation found" ∧
    (∀ (local_install : Option String) (checked : Bool) (comp : String),
      should_use_local_or_download .Never local_install checked comp =
        match local_install with
        | some path => .ok (some path)
        | none => .error (NO_LOCAL_INSTALL_NEVER_ERROR ++ " for " ++ comp)) ∧
    (∀ env : JdkEnv,
      try_to_fetch_and_install_latest_jdk .Never env =
        match env.local_jdk with
        | some path => ⟨env.bin_path_of path, 0, none⟩
        | none =>
            ⟨.error "Update checks disabled (never) and no local JDK installation found",
             0, none⟩) := by
  refine ⟨rfl, ?_, ?_⟩
  · intro li c comp
    cases li <;> rfl
  · intro env
    cases hl : env.local_jdk <;>
      simp [try_to_fetch_and_install_latest_jdk, hl]

/-- Claim C5, counterexample: with no configured java_home, a PATH java of
major version 17, auto-download enabled and a compliant JDK (major 25)
fetchable, building the launch arguments fails with the version error instead
of escalating to the compliant runtime. -/
theorem claim5_counterexample :
    build_jdtls_launch_args jdtlsEnvOld "jdtls/build" [] =
      .error JDTLS_VERSION_ERROR ∧
    jdtlsEnvOld.autodownload = true ∧
    jdtlsEnvOld.jdk_fetch = .ok "jdk/25.0.1/bin" ∧
    jdtlsEnvOld.major_version ("jdk/25.0.1/bin" ++ "/" ++ "java") =
      .ok 25 := by
  refine ⟨by decide, rfl, rfl, by decide⟩

/-- Claim C5, amended: a resolved runtime below major version 21 is always
rejected with the version error, whether or not auto-download is permitted;
auto-download is consulted by get_java_executable only as a fallback when
neither the configured java_home nor PATH yields an executable, never as an
escalation for a noncompliant resolved runtime. -/
theorem claim5_version_gate :
    (∀ (env : JdtlsEnv) (jdtls_path : String) (jvm_args : List String)
       (exe : String) (major : Nat),
      env.jdtls_launcher_on_path = none →
      get_java_executable env.java_home env.which_java env.autodownload
        env.jdk_fetch env.exec_name = .ok exe →
      env.major_version exe = .ok major →
      major < 21 →
      build_jdtls_launch_args env jdtls_path jvm_args =
        .error JDTLS_VERSION_ERROR) ∧
    (∀ (which_java : Option String) (autodownload : Bool)
       (jdk_fetch : Except String String) (exec_name : String),
      get_java_executable none which_java autodownload jdk_fetch exec_name =
        match which_java with
        | some path => .ok path
        | none =>
            if autodownload then
              jdk_fetch.map (fun bin => bin ++ "/" ++ exec_name)
            else .error JAVA_EXEC_NOT_FOUND_ERROR) := by
  constructor
  · intro env jdtls_path jvm_args exe major h1 h2 h3 h4
    simp only [build_jdtls_launch_args, h1, h2, h3, Except.bind, bind]
    rw [if_pos h4]
  · intro wj a f e
    cases wj <;> rfl

theorem claim5_version_gate_witness :
    build_jdtls_launch_args jdtlsEnvOld ("jdtls" ++ "/build") [] =
      .error JDTLS_VERSION_ERROR :=
  claim5_version_gate.1 jdtlsEnvOld ("jdtls" ++ "/build") [] "/usr/bin/java"
    17 rfl rfl (by decide) (by decide)


theorem vle_refl (a : V3) : vle a a := by
  obtain ⟨a1, a2, a3⟩ := a
  simp [vle]

theorem vle_total (a b : V3) : vle a b ∨ vle b a := by
  obtain ⟨a1, a2, a3⟩ := a
  obtain ⟨b1, b2, b3⟩ := b
  simp only [vle]
  omega

theorem vle_trans (a b c : V3) (h1 : vle a b) (h2 : vle b c) : vle a c := by
  obtain ⟨a1, a2, a3⟩ := a
  obtain ⟨b1, b2, b3⟩ := b
  obtain ⟨c1, c2, c3⟩ := c
  simp only [vle] at h1 h2 ⊢
  omega

theorem maxPair_cases (a b : V3) : maxPair a b = a ∨ maxPair a b = b := by
  unfold maxPair
  split
  · right
    rfl
  · left
    rfl

theorem vle_maxPair_left (a b : V3) : vle a (maxPair a b) := by
  unfold maxPair
  split
  · assumption
  · exact vle_refl a

theorem vle_maxPair_right (a b : V3) : vle b (maxPair a b) := by
  unfold maxPair
  split
  · exact vle_refl b
  · rcases vle_total a b with h | h
    · contradiction
    · exact h

theorem foldl_maxPair_spec (t : List V3) (a : V3) :
    (t.foldl maxPair a = a ∨ t.foldl maxPair a ∈ t) ∧
    vle a (t.foldl maxPair a) ∧
    ∀ u ∈ t, vle u (t.foldl maxPair a) := by
  induction t generalizing a with
  | nil => exact ⟨Or.inl rfl, vle_refl a, by simp⟩
  | cons x rest ih =>
      obtain ⟨hmem, hle, hall⟩ := ih (maxPair a x)
      simp only [List.foldl_cons]
      refine ⟨?_, ?_, ?_⟩
      · rcases hmem with h | h
        · rcases maxPair_cases a x with h2 | h2
          · exact Or.inl (h.trans h2)
          · exact Or.inr (by rw [h, h2]; exact List.mem_cons_self x rest)
        · exact Or.inr (List.mem_cons_of_mem x h)
      · exact vle_trans a (maxPair a x) _ (vle_maxPair_left a x) hle
      · intro u hu
        rcases List.mem_cons.mp hu with h | h
        · subst h
          exact vle_trans u (maxPair a u) _ (vle_maxPair_right a u) hle
        · exact hall u h

theorem maxV_spec (l : List V3) (v : V3) (h : maxV l = some v) :
    v ∈ l ∧ ∀ u ∈ l, vle u v := by
  cases l with
  | nil => simp [maxV] at h
  | cons a t =>
      simp only [maxV, Option.some.injEq] at h
      subst h
      obtain ⟨hmem, hle, hall⟩ := foldl_maxPair_spec t a
      constructor
      · rcases hmem with h | h
        · rw [h]
          exact List.mem_cons_self a t
        · exact List.mem_cons_of_mem a h
      · intro u hu
        rcases List.mem_cons.mp hu with h | h
        · subst h
          exact hle
        · exact hall u h

/-- Claim C6, counterexample: an entry whose first two components are numeric
but whose third component starts with a non-numeric character makes the scan
abort with a parse error (the question-mark operator propagates the failed
parse of the empty digit buffer) instead of the entry being ignored; without
that entry the same listing scans successfully. -/
theorem claim6_counterexample :
    scanVersions (String.data "1.9.0 1.2.x ") =
      .error "could not parse number buffer" ∧
    scanVersions (String.data "1.9.0 ") = .ok [(1, 9, 0)] := by
  constructor
  · rfl
  · rfl

/-- Claim C6, amended: whenever the scan of the listing succeeds, the
selected latest version is a member of the collected set and is greater than
or equal (in numeric lexicographic triple order) to every collected version;
on a listing holding 1.9.0, 1.10.0 and 1.2.5 together with entries whose
first or second component is non-numeric, the malformed entries are ignored
and 1.10.0 is selected (numeric, not lexicographic, comparison).  Entries
malformed only in their third component abort the scan instead (see the
counterexample). -/
theorem claim6_latest_selection :
    (∀ (listing : String) (v : V3),
      latestJdtlsVersion listing = .ok v →
      ∃ vs, scanVersions listing.data = .ok vs ∧ v ∈ vs ∧
        ∀ u ∈ vs, vle u v) ∧
    latestJdtlsVersion milestonesListing = .ok (1, 10, 0) := by
  constructor
  · intro listing v h
    unfold latestJdtlsVersion at h
    cases hscan : scanVersions listing.data with
    | error e => rw [hscan] at h; cases h
    | ok vs =>
        rw [hscan] at h
        dsimp only at h
        cases hmax : maxV vs with
        | none => rw [hmax] at h; cases h
        | some w =>
            rw [hmax] at h
            injection h with h2
            subst h2
            obtain ⟨hm, hall⟩ := maxV_spec vs w hmax
            exact ⟨vs, rfl, hm, hall⟩
  · rfl

theorem claim6_latest_selection_witness :
    ∃ vs, scanVersions milestonesListing.data = .ok vs ∧ (1, 10, 0) ∈ vs ∧
      ∀ u ∈ vs, vle u (1, 10, 0) :=
  claim6_latest_selection.1 milestonesListing (1, 10, 0)
    claim6_latest_selection.2


/-- Claim C7: among the collaborator candidates matching the configured
hints, more than one yields the multiple-entry-points error, exactly one
overrides both the main class and the project name, and zero leaves the
original (possibly absent) hints unchanged. -/
theorem claim7_entry_point :
    ∀ (main_class project_name : Option String)
      (candidates : List MainClassEntry),
      ((matchingEntries main_class project_name candidates).length > 1 →
        resolveEntryPoint main_class project_name candidates =
          .error "Project have multiple entry points, you must explicitly specify \"mainClass\" or \"projectName\"") ∧
      (∀ e, matchingEntries main_class project_name candidates = [e] →
        resolveEntryPoint main_class project_name candidates =
          .ok (some e.main_class, some e.project_name)) ∧
      (matchingEntries main_class project_name candidates = [] →
        resolveEntryPoint main_class project_name candidates =
          .ok (main_class, project_name)) := by
  intro mc pn cands
  refine ⟨?_, ?_, ?_⟩
  · intro h
    unfold resolveEntryPoint
    rw [if_pos h]
  · intro e h
    unfold resolveEntryPoint
    rw [h]
    simp
  · intro h
    unfold resolveEntryPoint
    rw [h]
    simp

theorem claim7_entry_point_witness :
    resolveEntryPoint none none
        [⟨"com.example.A", "projA", "A.java"⟩,
         ⟨"com.example.B", "projB", "B.java"⟩] =
      .error "Project have multiple entry points, you must explicitly specify \"mainClass\" or \"projectName\"" :=
  (claim7_entry_point none none
    [⟨"com.example.A", "projA", "A.java"⟩,
     ⟨"com.example.B", "projB", "B.java"⟩]).1 (by decide)

/-- Claim C8: on a launch configuration whose cwd is
workspace-folder-token/src with workspace root /home/u/proj, injection
produces the serialized text with every occurrence of the token (also inside
the args field) replaced by the root, and the replacement equals a plain
textual replace applied to the serialized configuration, not a JSON-aware
substitution. -/
theorem claim8_workspace_substitution :
    inject_config "/home/u/proj" collabEmpty "original" (.ok c8input) =
      .ok "\x7b\"request\":\"launch\",\"args\":\"/home/u/proj/x /home/u/proj/y\",\"classPaths\":[\"/lib/a.jar\"],\"cwd\":\"/home/u/proj/src\"\x7d" ∧
    replaceAll
        "\x7b\"request\":\"launch\",\"args\":\"$\x7bworkspaceFolder\x7d/x $\x7bworkspaceFolder\x7d/y\",\"classPaths\":[\"/lib/a.jar\"],\"cwd\":\"$\x7bworkspaceFolder\x7d/src\"\x7d"
        workspaceFolderToken "/home/u/proj" =
      "\x7b\"request\":\"launch\",\"args\":\"/home/u/proj/x /home/u/proj/y\",\"classPaths\":[\"/lib/a.jar\"],\"cwd\":\"/home/u/proj/src\"\x7d" := by
  constructor
  · rfl
  · rfl

theorem parseLaunchConfig_missing_request (v : JValue)
    (h : getField v "request" = none) :
    ∃ e, parseLaunchConfig v = .error e := by
  rcases v with _ | b | n | s | elems | fs
  case obj =>
    exact ⟨"missing field request",
      by simp [parseLaunchConfig, h, bind, Except.bind]⟩
  all_goals
    exact ⟨"invalid type: expected struct JavaDebugLaunchConfig", rfl⟩

/-- Claim C9: a configuration value with no request field is not passed
through (the pass-through guard is false), and injection fails with a parse
error because the typed parse requires the request field. -/
theorem claim9_missing_request :
    ∀ (root : String) (lsp : LspCollab) (v : JValue) (s : String),
      getField v "request" = none →
      passGuard v = false ∧
      ∃ e, inject_config root lsp s (.ok v) = .error e := by
  intro root lsp v s h
  have hguard : passGuard v = false := by simp [passGuard, h]
  refine ⟨hguard, ?_⟩
  obtain ⟨e, he⟩ := parseLaunchConfig_missing_request v h
  refine ⟨"Failed to parse java debug config " ++ e, ?_⟩
  simp [inject_config, injectConfigCore, hguard, he]

theorem claim9_missing_request_witness :
    passGuard (JValue.obj [("cwd", JValue.str "x")]) = false ∧
    ∃ e, inject_config "/r" collabEmpty "text"
      (.ok (JValue.obj [("cwd", JValue.str "x")])) = .error e :=
  claim9_missing_request "/r" collabEmpty
    (JValue.obj [("cwd", JValue.str "x")]) "text" rfl

theorem get_tag_at_no_err (tags : JValue) (i : Nat) (e : String) :
    get_tag_at tags i ≠ .err e := by
  intro h
  rcases tags with _ | b | n | s | elems | fs
  case arr =>
    unfold get_tag_at at h
    dsimp only at h
    rcases helem : elems[i]? with _ | t
    · rw [helem] at h
      simp at h
    · rw [helem] at h
      dsimp only at h
      rcases hname : getField t "name" with _ | nv
      · rw [hname] at h
        simp at h
      · rcases nv with _ | b2 | n2 | ns | a2 | f2 <;> rw [hname] at h <;>
          first
          | (by_cases hni : ns.data = [] <;> simp [hni] at h)
          | simp at h
  all_goals simp [get_tag_at] at h

/-- Claim C10: the tag-name slice drops the first character when the name of
the indexed tag is a non-empty (ASCII) string; on an empty name the byte
slice panics, and the panic pre-empts the malformed-response error, which is
produced exactly when the lookup yields no sliced name (non-array responses
and missing or non-string names). -/
theorem claim10_tag_slicing :
    (∀ (t : JValue) (rest : List JValue) (s : String),
      getField t "name" = some (.str s) → s.data ≠ [] →
      get_tag_at (.arr (t :: rest)) 0 =
        .ok (some (String.mk (s.data.drop 1)))) ∧
    (∀ (t : JValue) (rest : List JValue) (s : String),
      getField t "name" = some (.str s) → s.data = [] →
      get_tag_at (.arr (t :: rest)) 0 = .panicked ∧
      get_latest_versions_from_tag (.arr (t :: rest)) = .panicked) ∧
    (∀ (tags : JValue) (e : String),
      get_latest_versions_from_tag tags = .err e →
      get_tag_at tags 0 = .ok none ∧ e = TAG_UNEXPECTED_FORMAT_ERROR) := by
  refine ⟨?_, ?_, ?_⟩
  · intro t rest s hn hne
    have hie : s.data.isEmpty = false := by
      cases hd : s.data
      · exact absurd hd hne
      · rfl
    simp [get_tag_at, hn, hie]
  · intro t rest s hn hemp
    have hie : s.data.isEmpty = true := by
      rw [hemp]
      rfl
    have hpk : get_tag_at (.arr (t :: rest)) 0 = .panicked := by
      simp [get_tag_at, hn, hie]
    refine ⟨hpk, ?_⟩
    unfold get_latest_versions_from_tag
    rw [hpk]
    rcases h1 : get_tag_at (.arr (t :: rest)) 1 with l2 | er2 | _ <;> rfl
  · intro tags e h
    unfold get_latest_versions_from_tag at h
    rcases h0 : get_tag_at tags 0 with l | er | _
    · rcases h1 : get_tag_at tags 1 with l2 | er2 | _
      · rw [h0, h1] at h
        rcases l with _ | lv
        · simp at h
          exact ⟨rfl, h.symm⟩
        · simp at h
      · exact absurd h1 (get_tag_at_no_err tags 1 er2)
      · rw [h0, h1] at h
        simp at h
    · exact absurd h0 (get_tag_at_no_err tags 0 er)
    · rw [h0] at h
      simp at h

theorem claim10_tag_slicing_witness :
    get_tag_at (.arr [JValue.obj [("name", JValue.str "v1.18.30")]]) 0 =
      .ok (some (String.mk ("v1.18.30".data.drop 1))) ∧
    get_tag_at (.arr [JValue.obj [("name", JValue.str "")]]) 0 = .panicked ∧
    get_latest_versions_from_tag
      (.arr [JValue.obj [("name", JValue.str "")]]) = .panicked ∧
    get_tag_at (JValue.num 1) 0 = .ok none := by
  have h := claim10_tag_slicing
  refine ⟨h.1 (JValue.obj [("name", JValue.str "v1.18.30")]) [] "v1.18.30"
      rfl (by decide),
    (h.2.1 (JValue.obj [("name", JValue.str "")]) [] "" rfl rfl).1,
    (h.2.1 (JValue.obj [("name", JValue.str "")]) [] "" rfl rfl).2,
    (h.2.2 (JValue.num 1) TAG_UNEXPECTED_FORMAT_ERROR rfl).1⟩


end JavaExt
